import Mathlib

/-!
Verification of the Smart-Megazen telemetry engine.

The definitions below are a shallow embedding of the repository's
classification / aggregation / alerting core:
  * `isNodeStale`, `getNodeStatus`, `getWarehouseStatus`
    from `mobile/src/shared/MegazenService.js`;
  * the amber-alert edge trigger from
    `mobile/src/navigation/AppNavigator.js` (`useLiveWarehouse`);
  * the alert-log projection from `MegazenService.subscribeToAlerts`;
  * the CSV export `alertsToCsv` from the desktop `AlertLogPanel`.

JavaScript numbers are modelled as rationals (`ℚ`) and timestamps as
integers (`ℤ`); a field that may be `undefined`/`null` is an `Option`.
A JavaScript comparison `x > y` where `x` may be `undefined` is modelled
by `optGt` (absent values fail every comparison).  Host-library
date formatting (`Date.prototype.toISOString`) is abstracted as an
arbitrary rendering function `iso : ℤ → String`.
-/

namespace Megazen

/-- Status of a single node, as returned by `getNodeStatus`. -/
inductive NodeStatus
  | optimal
  | atRisk
  | critical
  | offline
  deriving DecidableEq

/-- Fleet-wide overall status, as returned by `getWarehouseStatus`. -/
inductive OverallStatus
  | optimal
  | atRisk
  | critical
  | noData
  deriving DecidableEq

/-- One node's raw reading from Firebase.  Every field may be absent. -/
structure Reading where
  hum : Option ℚ
  temp : Option ℚ
  battery : Option ℚ
  timestamp : Option ℤ
  deriving DecidableEq

/-- Safety thresholds (`configs/thresholds`). -/
structure Thresholds where
  max_humidity : ℚ
  max_temperature : ℚ
  min_battery : ℚ
  deriving DecidableEq

/-- Default safety thresholds (`DEFAULT_THRESHOLDS` in `MegazenService.js`). -/
def DEFAULT_THRESHOLDS : Thresholds :=
  { max_humidity := 60, max_temperature := 30, min_battery := 20 }

/-- Staleness cutoff `STALE_THRESHOLD_MS` (120000 ms) from `MegazenService.js`. -/
def STALE_THRESHOLD_MS : ℤ := 120000

/-- Staleness test `isNodeStale(lastSeenTimestamp)`: the JavaScript guard
treats an absent timestamp and the falsy timestamp `0` as stale; otherwise
the node is stale when `now - lastSeenTimestamp > STALE_THRESHOLD_MS`. -/
def isNodeStale (lastSeenTimestamp : Option ℤ) (now : ℤ) : Bool :=
  match lastSeenTimestamp with
  | none => true
  | some t => if t = 0 then true else decide (now - t > STALE_THRESHOLD_MS)

/-- JavaScript `x > y` where `x` may be `undefined`: an absent value fails
the comparison. -/
def optGt (x : Option ℚ) (y : ℚ) : Bool :=
  match x with
  | none => false
  | some v => decide (v > y)

/-- Unit classifier `getNodeStatus(node, thresholds)` from
`MegazenService.js`, with the
implicit `Date.now()` passed explicitly as `now`. -/
def getNodeStatus (node : Option Reading) (thresholds : Thresholds) (now : ℤ) :
    NodeStatus :=
  match node with
  | none => NodeStatus.offline
  | some n =>
    if isNodeStale n.timestamp now then NodeStatus.offline
    else if optGt n.hum (thresholds.max_humidity * (11 / 10)) ||
        optGt n.temp (thresholds.max_temperature * (11 / 10)) then
      NodeStatus.critical
    else if optGt n.hum thresholds.max_humidity ||
        optGt n.temp thresholds.max_temperature then
      NodeStatus.atRisk
    else
      NodeStatus.optimal

/-- Modelled from the spec: the tiered reference classification of C1.
Offline when the reading is absent or its timestamp is missing or older
than 120000 ms before `now`; else Critical on a >10% threshold overshoot;
else At Risk on a threshold breach; else Optimal. -/
def specNodeStatus (node : Option Reading) (thresholds : Thresholds) (now : ℤ) :
    NodeStatus :=
  match node with
  | none => NodeStatus.offline
  | some n =>
    match n.timestamp with
    | none => NodeStatus.offline
    | some t =>
      if now - t > 120000 then NodeStatus.offline
      else if optGt n.hum (thresholds.max_humidity * (11 / 10)) ||
          optGt n.temp (thresholds.max_temperature * (11 / 10)) then
        NodeStatus.critical
      else if optGt n.hum thresholds.max_humidity ||
          optGt n.temp thresholds.max_temperature then
        NodeStatus.atRisk
      else
        NodeStatus.optimal

/-- Temperature fallback `node.temp ?? 0` used inside the aggregation
loop (only reached for
online nodes, where the node object is present). -/
def nodeTemp (node : Option Reading) : ℚ :=
  match node with
  | none => 0
  | some n => n.temp.getD 0

/-- Humidity fallback `node.hum ?? 0` used inside the aggregation loop. -/
def nodeHum (node : Option Reading) : ℚ :=
  match node with
  | none => 0
  | some n => n.hum.getD 0

/-- Low-battery test `node.battery != null && node.battery < thresholds.min_battery`. -/
def batteryLow (node : Option Reading) (thresholds : Thresholds) : Bool :=
  match node with
  | none => false
  | some n =>
    match n.battery with
    | none => false
    | some b => decide (b < thresholds.min_battery)

/-- The enriched per-node record built inside `getWarehouseStatus`
(`{ ...node, nodeId, status, isOnline, lastSeenAgo }`). -/
structure EnrichedNode where
  node : Option Reading
  nodeId : String
  status : NodeStatus
  isOnline : Bool
  lastSeenAgo : Option ℤ
  deriving DecidableEq

/-- Seconds since last seen: `Math.floor((Date.now() - node.timestamp) / 1000)` when
`node?.timestamp` is truthy, else `null`. -/
def lastSeenAgo (node : Option Reading) (now : ℤ) : Option ℤ :=
  match node with
  | none => none
  | some n =>
    match n.timestamp with
    | none => none
    | some t => if t = 0 then none else some (Int.fdiv (now - t) 1000)

/-- One enriched node as assembled in the aggregation loop. -/
def enrichNode (thresholds : Thresholds) (now : ℤ)
    (p : String × Option Reading) : EnrichedNode :=
  { node := p.2
    nodeId := p.1
    status := getNodeStatus p.2 thresholds now
    isOnline := decide (getNodeStatus p.2 thresholds now ≠ NodeStatus.offline)
    lastSeenAgo := lastSeenAgo p.2 now }

/-- The accumulator of `getWarehouseStatus`'s loop. -/
structure AggState where
  tempSum : ℚ
  humSum : ℚ
  onlineCount : ℕ
  atRiskCount : ℕ
  criticalCount : ℕ
  lowBatteryNodes : List String
  enrichedNodes : List (String × EnrichedNode)
  deriving DecidableEq

/-- Initial accumulator state. -/
def aggInit : AggState :=
  { tempSum := 0, humSum := 0, onlineCount := 0, atRiskCount := 0,
    criticalCount := 0, lowBatteryNodes := [], enrichedNodes := [] }

/-- The body of `getWarehouseStatus`'s `for` loop, folded over the readings
in iteration order (the head entry is processed first, so its pushes appear
first in the produced lists; the numeric accumulations are commutative). -/
def aggregate (thresholds : Thresholds) (now : ℤ) :
    List (String × Option Reading) → AggState
  | [] => aggInit
  | p :: rest =>
    let s := aggregate thresholds now rest
    let status := getNodeStatus p.2 thresholds now
    { tempSum :=
        s.tempSum + (if status ≠ NodeStatus.offline then nodeTemp p.2 else 0)
      humSum :=
        s.humSum + (if status ≠ NodeStatus.offline then nodeHum p.2 else 0)
      onlineCount :=
        s.onlineCount + (if status ≠ NodeStatus.offline then 1 else 0)
      atRiskCount :=
        s.atRiskCount + (if status = NodeStatus.atRisk then 1 else 0)
      criticalCount :=
        s.criticalCount + (if status = NodeStatus.critical then 1 else 0)
      lowBatteryNodes :=
        if status ≠ NodeStatus.offline ∧ batteryLow p.2 thresholds = true then
          p.1 :: s.lowBatteryNodes
        else s.lowBatteryNodes
      enrichedNodes := (p.1, enrichNode thresholds now p) :: s.enrichedNodes }

/-- The aggregated warehouse snapshot returned by `getWarehouseStatus`. -/
structure FleetSnapshot where
  overallStatus : OverallStatus
  averageTemp : ℚ
  averageHum : ℚ
  totalNodes : ℕ
  onlineNodes : ℕ
  offlineNodes : ℕ
  atRiskNodesCount : ℕ
  criticalNodesCount : ℕ
  lowBatteryNodes : List String
  enrichedNodes : List (String × EnrichedNode)
  deriving DecidableEq

/-- Rounding to one decimal place, as `parseFloat(x.toFixed(1))`. -/
def round1 (q : ℚ) : ℚ := (round (q * 10) : ℤ) / 10

/-- The early-return snapshot for an empty readings map. -/
def emptySnapshot : FleetSnapshot :=
  { overallStatus := OverallStatus.noData, averageTemp := 0, averageHum := 0,
    totalNodes := 0, onlineNodes := 0, offlineNodes := 0,
    atRiskNodesCount := 0, criticalNodesCount := 0,
    lowBatteryNodes := [], enrichedNodes := [] }

/-- Fleet aggregator `getWarehouseStatus(readings, thresholds)` from
`MegazenService.js`,
with `Date.now()` passed explicitly; the readings map is modelled as an
association list in key order. -/
def getWarehouseStatus (readings : List (String × Option Reading))
    (thresholds : Thresholds) (now : ℤ) : FleetSnapshot :=
  if readings = [] then emptySnapshot
  else
    let s := aggregate thresholds now readings
    { overallStatus :=
        if s.criticalCount > 0 then OverallStatus.critical
        else if s.atRiskCount > 0 then OverallStatus.atRisk
        else if s.onlineCount = 0 then OverallStatus.noData
        else OverallStatus.optimal
      averageTemp :=
        if s.onlineCount > 0 then round1 (s.tempSum / s.onlineCount) else 0
      averageHum :=
        if s.onlineCount > 0 then round1 (s.humSum / s.onlineCount) else 0
      totalNodes := readings.length
      onlineNodes := s.onlineCount
      offlineNodes := readings.length - s.onlineCount
      atRiskNodesCount := s.atRiskCount
      criticalNodesCount := s.criticalCount
      lowBatteryNodes := s.lowBatteryNodes
      enrichedNodes := s.enrichedNodes }

/-- The sum `tempSum` accumulated over online nodes only. -/
def onlineTempSum (thresholds : Thresholds) (now : ℤ)
    (readings : List (String × Option Reading)) : ℚ :=
  (readings.map fun p =>
    if getNodeStatus p.2 thresholds now ≠ NodeStatus.offline then nodeTemp p.2
    else 0).sum

/-- The sum `humSum` accumulated over online nodes only. -/
def onlineHumSum (thresholds : Thresholds) (now : ℤ)
    (readings : List (String × Option Reading)) : ℚ :=
  (readings.map fun p =>
    if getNodeStatus p.2 thresholds now ≠ NodeStatus.offline then nodeHum p.2
    else 0).sum

/-! ## Amber-alert edge trigger (`useLiveWarehouse` in `AppNavigator.js`) -/

/-- The state held by the hook: the `amberAlertActive` flag and the
`prevOverall` ref (the previous snapshot's overall status, `null` before
the first snapshot). -/
structure AlarmState where
  active : Bool
  prevOverall : Option OverallStatus
  deriving DecidableEq

/-- Initial hook state: `useState(false)` and `useRef(null)`. -/
def alarmInit : AlarmState := { active := false, prevOverall := none }

/-- The fresh-transition condition guarding `setAmberAlertActive(true)`:
the status-aggregation effect activates when the new overall status is
Critical and the recorded previous status is not Critical. -/
def alarmFires (s : AlarmState) (st : OverallStatus) : Bool :=
  decide (st = OverallStatus.critical) &&
    !decide (s.prevOverall = some OverallStatus.critical)

/-- Processing one snapshot in the status-aggregation effect: activate on a
fresh transition into Critical (and only then — the effect never writes
`false`), then record the status in `prevOverall.current`. -/
def stepAlarm (s : AlarmState) (st : OverallStatus) : AlarmState :=
  { active := if alarmFires s st then true else s.active
    prevOverall := some st }

/-- Manual dismissal `dismissAmberAlert`, which sets the active flag to
false; it does not touch
`prevOverall.current`. -/
def dismissAmberAlert (s : AlarmState) : AlarmState :=
  { active := false, prevOverall := s.prevOverall }

/-- Run the effect over a sequence of snapshot statuses. -/
def runAlarm (s : AlarmState) (trace : List OverallStatus) : AlarmState :=
  trace.foldl stepAlarm s

/-- The activation flag of each step of a run. -/
def fireFlags (s : AlarmState) : List OverallStatus → List Bool
  | [] => []
  | st :: rest => alarmFires s st :: fireFlags (stepAlarm s st) rest

/-- Number of alarm activations over a run. -/
def countActivations (s : AlarmState) (trace : List OverallStatus) : ℕ :=
  (fireFlags s trace).count true

/-! ## Alert-log projection (`subscribeToAlerts`) and CSV export -/

/-- A raw record under `logs/alerts/{autoId}`, as documented for
`pushAlert`: every payload field may be absent. -/
structure RawAlert where
  nodeId : Option String
  type : Option String
  value : Option ℚ
  threshold : Option ℚ
  message : Option String
  timestamp : Option ℤ
  deriving DecidableEq

/-- An alert record after projection: `{ id, ...alert }`. -/
structure Alert where
  id : String
  nodeId : Option String
  type : Option String
  value : Option ℚ
  threshold : Option ℚ
  message : Option String
  timestamp : Option ℤ
  deriving DecidableEq

/-- Projection of one keyed entry: the map key becomes the id field and
the remaining raw fields are spread into the record. -/
def mkAlert (id : String) (a : RawAlert) : Alert :=
  { id := id, nodeId := a.nodeId, type := a.type, value := a.value,
    threshold := a.threshold, message := a.message, timestamp := a.timestamp }

/-- The sort key of the comparator `(b.timestamp ?? 0) - (a.timestamp ?? 0)`. -/
def alertSortKey (a : Alert) : ℤ := a.timestamp.getD 0

/-- Newest-first order: `a` sorts no later than `b` under the comparator. -/
def alertNewerEq (a b : Alert) : Prop := alertSortKey b ≤ alertSortKey a

instance : DecidableRel alertNewerEq := fun a b =>
  inferInstanceAs (Decidable (alertSortKey b ≤ alertSortKey a))

instance : IsTotal Alert alertNewerEq :=
  ⟨fun a b => (le_total (alertSortKey b) (alertSortKey a)).imp id id⟩

instance : IsTrans Alert alertNewerEq :=
  ⟨fun _ _ _ hab hbc => le_trans hbc hab⟩

/-- The projection performed inside `subscribeToAlerts`:
`Object.entries(raw).map(([id, alert]) => ({ id, ...alert })).sort(...)`,
the stable sort modelled by insertion sort under the newest-first order. -/
def projectAlerts (raw : List (String × RawAlert)) : List Alert :=
  List.insertionSort alertNewerEq (raw.map fun p => mkAlert p.1 p.2)

/-- Quote doubling on the underlying character list: every double-quote
character is replaced by two of them. -/
def escQuote : List Char → List Char
  | [] => []
  | c :: cs => if c = '"' then '"' :: '"' :: escQuote cs else c :: escQuote cs

/-- Quote doubling applied to the message string (empty when absent). -/
def escapeQuotes (s : String) : String := String.mk (escQuote s.data)

/-- Inverse of quote doubling: collapse each doubled quote. -/
def unescQuote : List Char → List Char
  | [] => []
  | [c] => [c]
  | c :: d :: cs =>
    if c = '"' ∧ d = '"' then '"' :: unescQuote cs
    else c :: unescQuote (d :: cs)

/-- Collapse doubled quote characters in a string. -/
def unescapeQuotes (s : String) : String := String.mk (unescQuote s.data)

/-- Rendering of an optional numeric CSV field, empty when absent. -/
def ratField (x : Option ℚ) : String :=
  match x with
  | none => ""
  | some q => toString q

/-- Timestamp field: the ISO rendering of a truthy timestamp and the
empty string otherwise, with the host date formatter abstracted as `iso`. -/
def csvTimestamp (iso : ℤ → String) (t : Option ℤ) : String :=
  match t with
  | none => ""
  | some v => if v = 0 then "" else iso v

/-- CSV export `alertsToCsv(alerts)` from the desktop alert-log panel:
header line,
then one row per alert, fields joined by commas, rows joined by newlines,
the message quoted with embedded quotes doubled. -/
def alertsToCsv (iso : ℤ → String) (alerts : List Alert) : String :=
  "ID,Node,Type,Value,Threshold,Timestamp,Message\n" ++
    String.intercalate "\n" (alerts.map fun a =>
      String.intercalate ","
        [a.id, a.nodeId.getD "", a.type.getD "", ratField a.value,
         ratField a.threshold, csvTimestamp iso a.timestamp,
         "\"" ++ escapeQuotes (a.message.getD "") ++ "\""])

/-- Modelled from the spec: quote-escaping by doubling embedded quote
characters, written independently of `escQuote`. -/
def specDoubleQuotes (s : String) : String :=
  String.mk (s.data.flatMap fun c => if c = '"' then ['"', '"'] else [c])

/-- Modelled from the spec: one CSV data row per record, carrying the
record's id, nodeId, type, value, threshold, ISO-rendered timestamp and
quote-wrapped escaped message. -/
def specCsvRow (iso : ℤ → String) (a : Alert) : String :=
  a.id ++ "," ++ a.nodeId.getD "" ++ "," ++ a.type.getD "" ++ "," ++
    ratField a.value ++ "," ++ ratField a.threshold ++ "," ++
    csvTimestamp iso a.timestamp ++ "," ++
    ("\"" ++ specDoubleQuotes (a.message.getD "") ++ "\"")

/-! ## Theorems -/

/-- Unfolding of `isNodeStale` at a present, nonzero timestamp. -/
theorem isNodeStale_some_ne_zero {t now : ℤ} (h0 : t ≠ 0) :
    isNodeStale (some t) now = decide (now - t > STALE_THRESHOLD_MS) := by
  simp [isNodeStale, h0]

/-- C1: for every reading and thresholds, and any current time later than
the staleness window (`120000 < now`), the unit classification computed by
`getNodeStatus` equals the tiered reference definition: Offline when the
reading is absent or its timestamp is missing or older than 120000 ms
before now (staleness first); otherwise Critical on a >10% overshoot of
either threshold; otherwise At Risk on a breach; otherwise Optimal. -/
theorem C1_unit_classification_matches_tiered_spec
    (node : Option Reading) (th : Thresholds) (now : ℤ)
    (h : STALE_THRESHOLD_MS < now) :
    getNodeStatus node th now = specNodeStatus node th now := by
  cases node with
  | none => rfl
  | some n =>
    cases ht : n.timestamp with
    | none => simp [getNodeStatus, specNodeStatus, isNodeStale, ht]
    | some t =>
      by_cases h0 : t = 0
      · subst h0
        have hgt : (120000 : ℤ) < now := by
          simpa [STALE_THRESHOLD_MS] using h
        simp [getNodeStatus, specNodeStatus, isNodeStale, ht, hgt]
      · simp only [getNodeStatus, specNodeStatus, ht,
          isNodeStale_some_ne_zero h0, STALE_THRESHOLD_MS]
        by_cases hstale : now - t > 120000
        · simp [hstale]
        · simp [hstale]

/-- Witness for C1 at a concrete fresh reading. -/
theorem C1_witness :
    STALE_THRESHOLD_MS < (200000 : ℤ) ∧
    getNodeStatus
        (some { hum := none, temp := none, battery := some 50,
                timestamp := some 150000 })
        DEFAULT_THRESHOLDS 200000 =
      specNodeStatus
        (some { hum := none, temp := none, battery := some 50,
                timestamp := some 150000 })
        DEFAULT_THRESHOLDS 200000 :=
  ⟨by decide,
   C1_unit_classification_matches_tiered_spec _ DEFAULT_THRESHOLDS 200000
     (by decide)⟩

/-- C6: two readings that agree on `hum`, `temp` and `timestamp` but differ
arbitrarily in `battery` receive the same classification for every
thresholds object and time — battery does not influence `getNodeStatus`. -/
theorem C6_battery_noninterference
    (r₁ r₂ : Reading) (th : Thresholds) (now : ℤ)
    (hh : r₁.hum = r₂.hum) (htp : r₁.temp = r₂.temp)
    (hts : r₁.timestamp = r₂.timestamp) :
    getNodeStatus (some r₁) th now = getNodeStatus (some r₂) th now := by
  cases r₁ with
  | mk h₁ t₁ b₁ ts₁ =>
    cases r₂ with
    | mk h₂ t₂ b₂ ts₂ =>
      simp only at hh htp hts
      subst hh; subst htp; subst hts
      rfl

/-- Witness for C6: same telemetry, different battery fields. -/
theorem C6_witness :
    getNodeStatus
        (some { hum := none, temp := none, battery := some 5,
                timestamp := some 150000 })
        DEFAULT_THRESHOLDS 200000 =
      getNodeStatus
        (some { hum := none, temp := none, battery := none,
                timestamp := some 150000 })
        DEFAULT_THRESHOLDS 200000 :=
  C6_battery_noninterference _ _ DEFAULT_THRESHOLDS 200000 rfl rfl rfl

/-- C10: a fresh reading with absent `hum` and `temp` classifies as
Optimal (absent values fail every threshold comparison), is counted as
online by the aggregation, and contributes `0` to both running sums. -/
theorem C10_fresh_empty_reading_optimal
    (n : Reading) (th : Thresholds) (now t : ℤ)
    (hts : n.timestamp = some t) (h0 : t ≠ 0)
    (hfresh : now - t ≤ 120000)
    (hh : n.hum = none) (htp : n.temp = none) :
    getNodeStatus (some n) th now = NodeStatus.optimal ∧
    ∀ (id : String) (rest : List (String × Option Reading)),
      (aggregate th now ((id, some n) :: rest)).onlineCount =
        (aggregate th now rest).onlineCount + 1 ∧
      (aggregate th now ((id, some n) :: rest)).tempSum =
        (aggregate th now rest).tempSum ∧
      (aggregate th now ((id, some n) :: rest)).humSum =
        (aggregate th now rest).humSum := by
  have hstat : getNodeStatus (some n) th now = NodeStatus.optimal := by
    have hns : isNodeStale (some t) now = false := by
      rw [isNodeStale_some_ne_zero h0]
      simp [STALE_THRESHOLD_MS]
      omega
    simp [getNodeStatus, hts, hns, optGt, hh, htp]
  refine ⟨hstat, fun id rest => ?_⟩
  simp [aggregate, hstat, nodeTemp, nodeHum, hh, htp]

/-- The critical counter counts exactly the entries classified Critical. -/
theorem aggregate_criticalCount (th : Thresholds) (now : ℤ)
    (r : List (String × Option Reading)) :
    (aggregate th now r).criticalCount =
      r.countP (fun p => decide (getNodeStatus p.2 th now = NodeStatus.critical)) := by
  induction r with
  | nil => rfl
  | cons p rest ih =>
    simp [aggregate, List.countP_cons, ih]

/-- The at-risk counter counts exactly the entries classified At Risk. -/
theorem aggregate_atRiskCount (th : Thresholds) (now : ℤ)
    (r : List (String × Option Reading)) :
    (aggregate th now r).atRiskCount =
      r.countP (fun p => decide (getNodeStatus p.2 th now = NodeStatus.atRisk)) := by
  induction r with
  | nil => rfl
  | cons p rest ih =>
    simp [aggregate, List.countP_cons, ih]

/-- The online counter counts exactly the entries not classified Offline. -/
theorem aggregate_onlineCount (th : Thresholds) (now : ℤ)
    (r : List (String × Option Reading)) :
    (aggregate th now r).onlineCount =
      r.countP (fun p => decide (getNodeStatus p.2 th now ≠ NodeStatus.offline)) := by
  induction r with
  | nil => rfl
  | cons p rest ih =>
    simp [aggregate, List.countP_cons, ih]

/-- The accumulated temperature sum is the sum over online entries. -/
theorem aggregate_tempSum (th : Thresholds) (now : ℤ)
    (r : List (String × Option Reading)) :
    (aggregate th now r).tempSum = onlineTempSum th now r := by
  induction r with
  | nil => rfl
  | cons p rest ih =>
    simp [aggregate, onlineTempSum, ih]
    by_cases hp : getNodeStatus p.2 th now = NodeStatus.offline <;>
      simp [hp, onlineTempSum, add_comm]

/-- The accumulated humidity sum is the sum over online entries. -/
theorem aggregate_humSum (th : Thresholds) (now : ℤ)
    (r : List (String × Option Reading)) :
    (aggregate th now r).humSum = onlineHumSum th now r := by
  induction r with
  | nil => rfl
  | cons p rest ih =>
    simp [aggregate, onlineHumSum, ih]
    by_cases hp : getNodeStatus p.2 th now = NodeStatus.offline <;>
      simp [hp, onlineHumSum, add_comm]

/-- One enriched record is produced per input entry. -/
theorem aggregate_enriched_length (th : Thresholds) (now : ℤ)
    (r : List (String × Option Reading)) :
    (aggregate th now r).enrichedNodes.length = r.length := by
  induction r with
  | nil => rfl
  | cons p rest ih => simp [aggregate, ih]

/-- At most one online unit per entry. -/
theorem aggregate_online_le_length (th : Thresholds) (now : ℤ)
    (r : List (String × Option Reading)) :
    (aggregate th now r).onlineCount ≤ r.length := by
  rw [aggregate_onlineCount]
  exact List.countP_le_length _

/-- Only online units are counted At Risk or Critical. -/
theorem aggregate_atRisk_add_critical_le_online (th : Thresholds) (now : ℤ)
    (r : List (String × Option Reading)) :
    (aggregate th now r).atRiskCount + (aggregate th now r).criticalCount ≤
      (aggregate th now r).onlineCount := by
  induction r with
  | nil => simp [aggregate, aggInit]
  | cons p rest ih =>
    simp only [aggregate]
    cases hp : getNodeStatus p.2 th now <;> simp [hp] <;> omega

/-- Every collected low-battery identifier comes from an online entry whose
battery is present and below the floor. -/
theorem aggregate_lowBattery_sound (th : Thresholds) (now : ℤ)
    (r : List (String × Option Reading)) :
    ∀ id ∈ (aggregate th now r).lowBatteryNodes,
      ∃ p ∈ r, p.1 = id ∧ getNodeStatus p.2 th now ≠ NodeStatus.offline ∧
        ∃ n, p.2 = some n ∧ ∃ b, n.battery = some b ∧ b < th.min_battery := by
  induction r with
  | nil => simp [aggregate, aggInit]
  | cons p rest ih =>
    intro id hid
    simp only [aggregate] at hid
    by_cases hc :
        getNodeStatus p.2 th now ≠ NodeStatus.offline ∧ batteryLow p.2 th = true
    · rw [if_pos hc] at hid
      rcases List.mem_cons.mp hid with h | h
      · subst h
        refine ⟨p, List.mem_cons_self _ _, rfl, hc.1, ?_⟩
        have hb := hc.2
        cases hnode : p.2 with
        | none => rw [hnode] at hb; simp [batteryLow] at hb
        | some n =>
          rw [hnode] at hb
          cases hbat : n.battery with
          | none => rw [batteryLow, hbat] at hb; simp at hb
          | some b =>
            rw [batteryLow, hbat] at hb
            simp at hb
            exact ⟨n, rfl, b, hbat, hb⟩
      · rcases ih id h with ⟨q, hq, rest'⟩
        exact ⟨q, List.mem_cons_of_mem _ hq, rest'⟩
    · rw [if_neg hc] at hid
      rcases ih id hid with ⟨q, hq, rest'⟩
      exact ⟨q, List.mem_cons_of_mem _ hq, rest'⟩

/-- C2: the overall status of the aggregated snapshot is Critical iff some
unit classifies Critical; No Data iff the online count is zero (which
covers the empty readings map); At Risk iff some unit is At Risk and none
is Critical; Optimal iff at least one unit is online and no unit is
Critical or At Risk. -/
theorem C2_overall_status_characterization
    (r : List (String × Option Reading)) (th : Thresholds) (now : ℤ) :
    ((getWarehouseStatus r th now).overallStatus = OverallStatus.critical ↔
      ∃ p ∈ r, getNodeStatus p.2 th now = NodeStatus.critical) ∧
    ((getWarehouseStatus r th now).overallStatus = OverallStatus.noData ↔
      (getWarehouseStatus r th now).onlineNodes = 0) ∧
    ((getWarehouseStatus r th now).overallStatus = OverallStatus.atRisk ↔
      ((∃ p ∈ r, getNodeStatus p.2 th now = NodeStatus.atRisk) ∧
        ∀ p ∈ r, getNodeStatus p.2 th now ≠ NodeStatus.critical)) ∧
    ((getWarehouseStatus r th now).overallStatus = OverallStatus.optimal ↔
      (0 < (getWarehouseStatus r th now).onlineNodes ∧
        ∀ p ∈ r, getNodeStatus p.2 th now ≠ NodeStatus.critical ∧
          getNodeStatus p.2 th now ≠ NodeStatus.atRisk)) := by
  by_cases hr : r = []
  · subst hr
    simp [getWarehouseStatus, emptySnapshot]
  · have hcritpos : 0 < (aggregate th now r).criticalCount ↔
        ∃ p ∈ r, getNodeStatus p.2 th now = NodeStatus.critical := by
      rw [aggregate_criticalCount, List.countP_pos_iff]
      constructor
      · rintro ⟨p, hp, hd⟩
        exact ⟨p, hp, by simpa using hd⟩
      · rintro ⟨p, hp, hd⟩
        exact ⟨p, hp, by simpa using hd⟩
    have hatrpos : 0 < (aggregate th now r).atRiskCount ↔
        ∃ p ∈ r, getNodeStatus p.2 th now = NodeStatus.atRisk := by
      rw [aggregate_atRiskCount, List.countP_pos_iff]
      constructor
      · rintro ⟨p, hp, hd⟩
        exact ⟨p, hp, by simpa using hd⟩
      · rintro ⟨p, hp, hd⟩
        exact ⟨p, hp, by simpa using hd⟩
    have hcrit0 : (aggregate th now r).criticalCount = 0 ↔
        ∀ p ∈ r, getNodeStatus p.2 th now ≠ NodeStatus.critical := by
      rw [aggregate_criticalCount, List.countP_eq_zero]
      constructor
      · intro h p hp
        simpa using h p hp
      · intro h p hp
        simpa using h p hp
    have hatr0 : (aggregate th now r).atRiskCount = 0 ↔
        ∀ p ∈ r, getNodeStatus p.2 th now ≠ NodeStatus.atRisk := by
      rw [aggregate_atRiskCount, List.countP_eq_zero]
      constructor
      · intro h p hp
        simpa using h p hp
      · intro h p hp
        simpa using h p hp
    have hcrit_online : 0 < (aggregate th now r).criticalCount →
        0 < (aggregate th now r).onlineCount := by
      intro h1
      rcases hcritpos.mp h1 with ⟨p, hp, hpc⟩
      rw [aggregate_onlineCount]
      exact List.countP_pos_iff.mpr ⟨p, hp, by simp [hpc]⟩
    have hatr_online : 0 < (aggregate th now r).atRiskCount →
        0 < (aggregate th now r).onlineCount := by
      intro h1
      rcases hatrpos.mp h1 with ⟨p, hp, hpa⟩
      rw [aggregate_onlineCount]
      exact List.countP_pos_iff.mpr ⟨p, hp, by simp [hpa]⟩
    have hov : (getWarehouseStatus r th now).overallStatus =
        (if (aggregate th now r).criticalCount > 0 then OverallStatus.critical
         else if (aggregate th now r).atRiskCount > 0 then OverallStatus.atRisk
         else if (aggregate th now r).onlineCount = 0 then OverallStatus.noData
         else OverallStatus.optimal) := by
      simp only [getWarehouseStatus, if_neg hr]
    have honn : (getWarehouseStatus r th now).onlineNodes =
        (aggregate th now r).onlineCount := by
      simp only [getWarehouseStatus, if_neg hr]
    rcases Nat.eq_zero_or_pos (aggregate th now r).criticalCount with hc | hc
    · rcases Nat.eq_zero_or_pos (aggregate th now r).atRiskCount with ha | ha
      · rcases Nat.eq_zero_or_pos (aggregate th now r).onlineCount with ho | ho
        · -- nothing critical, nothing at risk, nothing online
          have hv : (getWarehouseStatus r th now).overallStatus =
              OverallStatus.noData := by
            rw [hov, if_neg (by omega), if_neg (by omega), if_pos ho]
          rw [hv, honn]
          refine ⟨iff_of_false (by decide) ?_, iff_of_true rfl ho,
            iff_of_false (by decide) ?_, iff_of_false (by decide) ?_⟩
          · rintro ⟨p, hp, hpc⟩
            have := hcritpos.mpr ⟨p, hp, hpc⟩
            omega
          · rintro ⟨⟨p, hp, hpa⟩, _⟩
            have := hatrpos.mpr ⟨p, hp, hpa⟩
            omega
          · rintro ⟨hpos, _⟩
            omega
        · -- fleet optimal
          have hv : (getWarehouseStatus r th now).overallStatus =
              OverallStatus.optimal := by
            rw [hov, if_neg (by omega), if_neg (by omega), if_neg (by omega)]
          rw [hv, honn]
          refine ⟨iff_of_false (by decide) ?_, iff_of_false (by decide) ?_,
            iff_of_false (by decide) ?_, iff_of_true rfl ⟨ho, ?_⟩⟩
          · rintro ⟨p, hp, hpc⟩
            have := hcritpos.mpr ⟨p, hp, hpc⟩
            omega
          · intro h0
            omega
          · rintro ⟨⟨p, hp, hpa⟩, _⟩
            have := hatrpos.mpr ⟨p, hp, hpa⟩
            omega
          · intro p hp
            exact ⟨hcrit0.mp hc p hp, hatr0.mp ha p hp⟩
      · -- fleet at risk
        have honl := hatr_online ha
        have hv : (getWarehouseStatus r th now).overallStatus =
            OverallStatus.atRisk := by
          rw [hov, if_neg (by omega), if_pos ha]
        rw [hv, honn]
        refine ⟨iff_of_false (by decide) ?_, iff_of_false (by decide) ?_,
          iff_of_true rfl ⟨hatrpos.mp ha, hcrit0.mp hc⟩,
          iff_of_false (by decide) ?_⟩
        · rintro ⟨p, hp, hpc⟩
          have := hcritpos.mpr ⟨p, hp, hpc⟩
          omega
        · intro h0
          omega
        · rintro ⟨_, hall⟩
          rcases hatrpos.mp ha with ⟨p, hp, hpa⟩
          exact (hall p hp).2 hpa
    · -- fleet critical
      have honl := hcrit_online hc
      have hv : (getWarehouseStatus r th now).overallStatus =
          OverallStatus.critical := by
        rw [hov, if_pos hc]
      rw [hv, honn]
      refine ⟨iff_of_true rfl (hcritpos.mp hc), iff_of_false (by decide) ?_,
        iff_of_false (by decide) ?_, iff_of_false (by decide) ?_⟩
      · intro h0
        omega
      · rintro ⟨_, hall⟩
        rcases hcritpos.mp hc with ⟨p, hp, hpc⟩
        exact hall p hp hpc
      · rintro ⟨_, hall⟩
        rcases hcritpos.mp hc with ⟨p, hp, hpc⟩
        exact (hall p hp).1 hpc

/-- Witness for C2: an empty fleet reports No Data. -/
theorem C2_witness :
    (getWarehouseStatus [] DEFAULT_THRESHOLDS 200000).overallStatus =
      OverallStatus.noData :=
  (C2_overall_status_characterization [] DEFAULT_THRESHOLDS 200000).2.1.mpr
    (by decide)

/-- C5: with zero online units both averages are exactly 0 (the division
by the online count is never taken); with a positive online count each
average is the corresponding online sum divided by the online count,
rounded to one decimal place. -/
theorem C5_average_no_division_by_zero
    (r : List (String × Option Reading)) (th : Thresholds) (now : ℤ) :
    ((getWarehouseStatus r th now).onlineNodes = 0 →
      (getWarehouseStatus r th now).averageTemp = 0 ∧
      (getWarehouseStatus r th now).averageHum = 0) ∧
    (0 < (getWarehouseStatus r th now).onlineNodes →
      (getWarehouseStatus r th now).averageTemp =
        round1 (onlineTempSum th now r /
          ((getWarehouseStatus r th now).onlineNodes : ℚ)) ∧
      (getWarehouseStatus r th now).averageHum =
        round1 (onlineHumSum th now r /
          ((getWarehouseStatus r th now).onlineNodes : ℚ))) := by
  by_cases hr : r = []
  · subst hr
    simp [getWarehouseStatus, emptySnapshot]
  · have honn : (getWarehouseStatus r th now).onlineNodes =
        (aggregate th now r).onlineCount := by
      simp only [getWarehouseStatus, if_neg hr]
    have havt : (getWarehouseStatus r th now).averageTemp =
        (if (aggregate th now r).onlineCount > 0 then
          round1 ((aggregate th now r).tempSum /
            ((aggregate th now r).onlineCount : ℚ))
         else 0) := by
      simp only [getWarehouseStatus, if_neg hr]
    have havh : (getWarehouseStatus r th now).averageHum =
        (if (aggregate th now r).onlineCount > 0 then
          round1 ((aggregate th now r).humSum /
            ((aggregate th now r).onlineCount : ℚ))
         else 0) := by
      simp only [getWarehouseStatus, if_neg hr]
    rw [honn, havt, havh]
    constructor
    · intro ho
      rw [if_neg (by omega), if_neg (by omega)]
      exact ⟨rfl, rfl⟩
    · intro ho
      rw [if_pos ho, if_pos ho, aggregate_tempSum, aggregate_humSum]
      exact ⟨rfl, rfl⟩

/-- Witness for C5: the empty fleet (zero online units) has zero averages,
and a single fresh unit yields the rounded one-unit average. -/
theorem C5_witness :
    (getWarehouseStatus [] DEFAULT_THRESHOLDS 200000).averageTemp = 0 ∧
    (getWarehouseStatus
        [("n1", some { hum := none, temp := none, battery := none,
                       timestamp := some 150000 })]
        DEFAULT_THRESHOLDS 200000).averageTemp =
      round1 (onlineTempSum DEFAULT_THRESHOLDS 200000
          [("n1", some { hum := none, temp := none, battery := none,
                         timestamp := some 150000 })] /
        ((getWarehouseStatus
            [("n1", some { hum := none, temp := none, battery := none,
                           timestamp := some 150000 })]
            DEFAULT_THRESHOLDS 200000).onlineNodes : ℚ)) :=
  ⟨((C5_average_no_division_by_zero [] DEFAULT_THRESHOLDS 200000).1
      (by decide)).1,
   ((C5_average_no_division_by_zero
      [("n1", some { hum := none, temp := none, battery := none,
                     timestamp := some 150000 })]
      DEFAULT_THRESHOLDS 200000).2 (by decide)).1⟩

/-- C9: snapshot count invariants — `totalNodes` equals the number of
input entries and of enriched records, splits as online + offline, the
at-risk and critical counts never exceed the online count, and every
low-battery identifier names an online entry with a present battery level
below the floor. -/
theorem C9_snapshot_count_invariants
    (r : List (String × Option Reading)) (th : Thresholds) (now : ℤ) :
    (getWarehouseStatus r th now).totalNodes = r.length ∧
    (getWarehouseStatus r th now).enrichedNodes.length = r.length ∧
    (getWarehouseStatus r th now).totalNodes =
      (getWarehouseStatus r th now).onlineNodes +
        (getWarehouseStatus r th now).offlineNodes ∧
    (getWarehouseStatus r th now).atRiskNodesCount +
        (getWarehouseStatus r th now).criticalNodesCount ≤
      (getWarehouseStatus r th now).onlineNodes ∧
    ∀ id ∈ (getWarehouseStatus r th now).lowBatteryNodes,
      ∃ p ∈ r, p.1 = id ∧ getNodeStatus p.2 th now ≠ NodeStatus.offline ∧
        ∃ n, p.2 = some n ∧ ∃ b, n.battery = some b ∧ b < th.min_battery := by
  by_cases hr : r = []
  · subst hr
    simp [getWarehouseStatus, emptySnapshot]
  · have hle := aggregate_online_le_length th now r
    simp only [getWarehouseStatus, if_neg hr]
    refine ⟨trivial, aggregate_enriched_length th now r, by omega,
      aggregate_atRisk_add_critical_le_online th now r, ?_⟩
    exact aggregate_lowBattery_sound th now r

/-- Witness for C9 at a one-unit fleet with a low battery. -/
theorem C9_witness :
    (getWarehouseStatus
        [("n1", some { hum := none, temp := none, battery := some 5,
                       timestamp := some 150000 })]
        DEFAULT_THRESHOLDS 200000).totalNodes = 1 ∧
    ∃ p ∈ [("n1", some { hum := none, temp := none, battery := some 5,
                         timestamp := some (150000 : ℤ) })],
      p.1 = "n1" ∧
      getNodeStatus p.2 DEFAULT_THRESHOLDS 200000 ≠ NodeStatus.offline ∧
      ∃ n, p.2 = some n ∧
        ∃ b, n.battery = some b ∧ b < DEFAULT_THRESHOLDS.min_battery := by
  have h := C9_snapshot_count_invariants
    [("n1", some { hum := none, temp := none, battery := some 5,
                   timestamp := some 150000 })]
    DEFAULT_THRESHOLDS 200000
  exact ⟨h.1, h.2.2.2.2 "n1" (by decide)⟩

/-- Unfolding lemma: `runAlarm` processes one snapshot at a time. -/
theorem runAlarm_cons (s : AlarmState) (st : OverallStatus)
    (trace : List OverallStatus) :
    runAlarm s (st :: trace) = runAlarm (stepAlarm s st) trace := rfl

/-- Splitting lemma: `fireFlags` distributes over list append. -/
theorem fireFlags_append (s : AlarmState) (pre post : List OverallStatus) :
    fireFlags s (pre ++ post) = fireFlags s pre ++ fireFlags (runAlarm s pre) post := by
  induction pre generalizing s with
  | nil => simp [fireFlags, runAlarm]
  | cons a rest ih => simp [fireFlags, runAlarm_cons, ih]

/-- One flag per processed snapshot. -/
theorem length_fireFlags (s : AlarmState) (trace : List OverallStatus) :
    (fireFlags s trace).length = trace.length := by
  induction trace generalizing s with
  | nil => rfl
  | cons a rest ih => simp [fireFlags, ih]

/-- After a run, `prevOverall` holds the last processed status (or the
starting value when the run is empty). -/
theorem runAlarm_prev (s : AlarmState) (pre : List OverallStatus) :
    (runAlarm s pre).prevOverall = pre.getLast?.elim s.prevOverall some := by
  induction pre generalizing s with
  | nil => rfl
  | cons a rest ih =>
    rw [runAlarm_cons, ih]
    cases rest with
    | nil => rfl
    | cons b t =>
      rw [List.getLast?_cons_cons]
      cases hx : (b :: t).getLast? with
      | none => simp at hx
      | some x => rfl

/-- C3: starting from no recorded previous status, the alarm activates at
exactly the positions of the snapshot stream whose overall status is
Critical while the preceding snapshot's status (absent at position zero)
was not Critical; on the stream
Optimal, Critical, Critical, Optimal, Critical it activates twice. -/
theorem C3_alarm_edge_trigger
    (pre : List OverallStatus) (st : OverallStatus) (post : List OverallStatus) :
    (fireFlags alarmInit (pre ++ st :: post)).get? pre.length =
      some (alarmFires (runAlarm alarmInit pre) st) ∧
    (alarmFires (runAlarm alarmInit pre) st = true ↔
      (st = OverallStatus.critical ∧
        (runAlarm alarmInit pre).prevOverall ≠ some OverallStatus.critical)) ∧
    (runAlarm alarmInit pre).prevOverall = pre.getLast? ∧
    countActivations alarmInit
      [OverallStatus.optimal, OverallStatus.critical, OverallStatus.critical,
       OverallStatus.optimal, OverallStatus.critical] = 2 := by
  refine ⟨?_, ?_, ?_, by decide⟩
  · rw [fireFlags_append]
    rw [List.get?_append_right (by rw [length_fireFlags])]
    rw [length_fireFlags]
    simp [fireFlags]
  · simp [alarmFires]
  · rw [runAlarm_prev]
    cases pre.getLast? <;> rfl

/-- Witness for C3 at a concrete stream position. -/
theorem C3_witness :
    (fireFlags alarmInit
        ([OverallStatus.optimal] ++ OverallStatus.critical :: [])).get? 1 =
      some (alarmFires (runAlarm alarmInit [OverallStatus.optimal])
        OverallStatus.critical) :=
  (C3_alarm_edge_trigger [OverallStatus.optimal] OverallStatus.critical []).1

/-- C4 counterexample: after the stream Optimal, Critical, Optimal the code
leaves the alarm active, although the overall status has left Critical —
the status-aggregation effect never writes the flag back to `false`. -/
theorem C4_counterexample :
    (runAlarm alarmInit
      [OverallStatus.optimal, OverallStatus.critical,
       OverallStatus.optimal]).active = true := by decide

/-- Once inactive with a Critical previous status, remaining Critical
never reactivates the alarm. -/
theorem runAlarm_stays_inactive (trace : List OverallStatus) :
    ∀ s : AlarmState, s.active = false →
      s.prevOverall = some OverallStatus.critical →
      (∀ st ∈ trace, st = OverallStatus.critical) →
      (runAlarm s trace).active = false := by
  induction trace with
  | nil =>
    intro s hs _ _
    exact hs
  | cons a rest ih =>
    intro s hs hp hall
    have ha : a = OverallStatus.critical := hall a (List.mem_cons_self _ _)
    rw [runAlarm_cons]
    refine ih (stepAlarm s a) ?_ ?_ ?_
    · simp [stepAlarm, alarmFires, hp, hs]
    · simp [stepAlarm, ha]
    · intro st hst
      exact hall st (List.mem_cons_of_mem _ hst)

/-- C4 amended: the alarm leaves the alarmed state only through an
explicit dismissal — `dismissAmberAlert` deactivates it (even while the
status is still Critical), and after such a dismissal the alarm stays
quiescent as long as the status remains Critical, reactivating only on the
next fresh entry into Critical; a snapshot whose status is not Critical
never changes the flag by itself. -/
theorem C4_dismissal_only_quiescence (s : AlarmState) :
    (dismissAmberAlert s).active = false ∧
    (∀ trace : List OverallStatus,
      s.prevOverall = some OverallStatus.critical →
      (∀ st ∈ trace, st = OverallStatus.critical) →
      (runAlarm (dismissAmberAlert s) trace).active = false) ∧
    (s.prevOverall ≠ some OverallStatus.critical →
      (stepAlarm (dismissAmberAlert s) OverallStatus.critical).active = true) ∧
    (∀ st, st ≠ OverallStatus.critical → (stepAlarm s st).active = s.active) := by
  refine ⟨rfl, ?_, ?_, ?_⟩
  · intro trace hp hall
    exact runAlarm_stays_inactive trace (dismissAmberAlert s) rfl hp hall
  · intro hp
    simp [stepAlarm, alarmFires, dismissAmberAlert, hp]
  · intro st hst
    simp [stepAlarm, alarmFires, hst]

/-- Witness for the amended C4: dismissing while critical keeps
the alarm quiescent through further critical snapshots, and a fresh
critical entry reactivates it. -/
theorem C4_witness :
    (runAlarm
      (dismissAmberAlert
        { active := true, prevOverall := some OverallStatus.critical })
      [OverallStatus.critical, OverallStatus.critical]).active = false ∧
    (stepAlarm
      (dismissAmberAlert
        { active := false, prevOverall := some OverallStatus.optimal })
      OverallStatus.critical).active = true :=
  ⟨((C4_dismissal_only_quiescence
      { active := true, prevOverall := some OverallStatus.critical }).2.1
      [OverallStatus.critical, OverallStatus.critical] rfl (by decide)),
   ((C4_dismissal_only_quiescence
      { active := false, prevOverall := some OverallStatus.optimal }).2.2.1
      (by decide))⟩

/-- C7: the alert-log projection yields exactly one record per input key
(a permutation of the per-key mapping), sorted descending by timestamp
with a missing timestamp treated as 0, each output record carrying its map
key as its identifier together with the raw record's remaining fields. -/
theorem C7_alert_projection (raw : List (String × RawAlert)) :
    (projectAlerts raw).Perm (raw.map fun p => mkAlert p.1 p.2) ∧
    List.Sorted alertNewerEq (projectAlerts raw) ∧
    (projectAlerts raw).length = raw.length ∧
    ∀ a ∈ projectAlerts raw, ∃ p ∈ raw, a = mkAlert p.1 p.2 ∧ a.id = p.1 := by
  refine ⟨List.perm_insertionSort _ _, List.sorted_insertionSort _ _, ?_, ?_⟩
  · simp [projectAlerts]
  · intro a ha
    rw [projectAlerts, List.mem_insertionSort] at ha
    rcases List.mem_map.mp ha with ⟨p, hp, hmk⟩
    refine ⟨p, hp, hmk.symm, ?_⟩
    rw [← hmk]
    rfl

/-- Witness for C7 on a concrete two-record log. -/
theorem C7_witness :
    ∃ p ∈ [("a", ({ nodeId := none, type := none, value := none,
                    threshold := none, message := none,
                    timestamp := some (5 : ℤ) } : RawAlert)),
           ("b", { nodeId := none, type := none, value := none,
                   threshold := none, message := none,
                   timestamp := some (9 : ℤ) })],
      mkAlert "b"
          { nodeId := none, type := none, value := none, threshold := none,
            message := none, timestamp := some (9 : ℤ) } =
        mkAlert p.1 p.2 ∧
      (mkAlert "b"
          { nodeId := none, type := none, value := none, threshold := none,
            message := none, timestamp := some (9 : ℤ) }).id = p.1 :=
  (C7_alert_projection
      [("a", { nodeId := none, type := none, value := none, threshold := none,
               message := none, timestamp := some 5 }),
       ("b", { nodeId := none, type := none, value := none, threshold := none,
               message := none, timestamp := some 9 })]).2.2.2
    (mkAlert "b"
      { nodeId := none, type := none, value := none, threshold := none,
        message := none, timestamp := some 9 })
    (by decide)

/-- A quote character is doubled by the escape. -/
theorem escQuote_eq_flatMap (cs : List Char) :
    escQuote cs = cs.flatMap fun c => if c = '"' then ['"', '"'] else [c] := by
  induction cs with
  | nil => rfl
  | cons c cs ih =>
    by_cases hc : c = '"' <;> simp [escQuote, hc, ih]

/-- The source escape equals the spec-side doubling function. -/
theorem escapeQuotes_eq_specDoubleQuotes (s : String) :
    escapeQuotes s = specDoubleQuotes s := by
  unfold escapeQuotes specDoubleQuotes
  rw [escQuote_eq_flatMap]

/-- Unescape step: `unescQuote` walks past a non-quote head character. -/
theorem unescQuote_cons_of_ne (c : Char) (hc : c ≠ '"') (l : List Char) :
    unescQuote (c :: l) = c :: unescQuote l := by
  cases l with
  | nil => rfl
  | cons d ds => simp [unescQuote, hc]

/-- Collapsing doubled quotes undoes the escape. -/
theorem unescQuote_escQuote (cs : List Char) :
    unescQuote (escQuote cs) = cs := by
  induction cs with
  | nil => rfl
  | cons c cs ih =>
    by_cases hc : c = '"'
    · subst hc
      simp [escQuote, unescQuote, ih]
    · simp only [escQuote, if_neg hc]
      rw [unescQuote_cons_of_ne c hc, ih]

/-- C8: the CSV export is the claim's header line followed by exactly one
data row per record (one row string per alert, fields in order: id, node,
type, value, threshold, ISO-rendered timestamp, quote-wrapped message with
embedded quotes doubled), and collapsing doubled quotes recovers every
message exactly — field values round-trip up to the timestamp rendering. -/
theorem C8_csv_export_roundtrip (iso : ℤ → String) (alerts : List Alert) :
    (alertsToCsv iso alerts =
      "ID,Node,Type,Value,Threshold,Timestamp,Message\n" ++
        String.intercalate "\n" (alerts.map (specCsvRow iso))) ∧
    (alerts.map (specCsvRow iso)).length = alerts.length ∧
    ∀ s : String, unescapeQuotes (escapeQuotes s) = s := by
  refine ⟨?_, by simp, ?_⟩
  · unfold alertsToCsv
    congr 1
    congr 1
    congr 1
    funext a
    simp [specCsvRow, String.intercalate, String.intercalate.go,
      String.append_assoc, escapeQuotes_eq_specDoubleQuotes]
  · intro s
    unfold unescapeQuotes escapeQuotes
    rw [unescQuote_escQuote]

/-- Witness for C10 at a concrete reading. -/
theorem C10_witness :
    getNodeStatus
        (some { hum := none, temp := none, battery := some 50,
                timestamp := some 150000 })
        DEFAULT_THRESHOLDS 200000 = NodeStatus.optimal ∧
    (aggregate DEFAULT_THRESHOLDS 200000
        [("n1", some { hum := none, temp := none, battery := some 50,
                       timestamp := some 150000 })]).onlineCount =
      (aggregate DEFAULT_THRESHOLDS 200000 []).onlineCount + 1 := by
  have h := C10_fresh_empty_reading_optimal
    { hum := none, temp := none, battery := some 50, timestamp := some 150000 }
    DEFAULT_THRESHOLDS 200000 150000 rfl (by decide) (by decide) rfl rfl
  exact ⟨h.1, (h.2 "n1" []).1⟩

end Megazen
